import Mathlib

/-!
Shallow embedding of `app.py` (SlideScript-AI): a Streamlit application that
converts slide-deck PDFs into speech transcripts via a remote multimodal
completion service, with an optional speech-rate calibration step.

The three components are embedded as pure Lean functions:
* `PDFProcessor.extract_slides`  → `extractSlides` (the PDF library is
  abstracted: a document is `Option (List PdfPage)`, `none` standing for an
  unreadable/corrupt input, and each page carries the text `get_text()`
  returns and the base64-encoded raster `get_pixmap` produces);
* `AudioAnalyzer.analyze_audio`  → `analyzeAudio` (the audio decoder and the
  remote transcription service are abstracted: the sample's duration in
  seconds and the text the service returns are oracle inputs);
* `TranscriptGenerator.generate_transcript` / `_create_system_prompt`
  → `generateRequest` / `createSystemPrompt` (the remote completion call is
  abstracted: the embedding produces the request payload that would be sent).

Python-specific primitives (`str.strip`, `int()` truncation, `//` floor
division, substring tests, `str.lower`) are modelled explicitly below.
-/

/-- Whitespace test on a single character, modelling Python's whitespace
class used by `str.strip` and `str.isspace`. -/
def isWS (c : Char) : Bool := c.isWhitespace

/-- Python `str.strip()`: drop whitespace from both ends. -/
def pyStrip (s : String) : String :=
  String.mk (((s.data.dropWhile isWS).reverse.dropWhile isWS).reverse)

/-- Python `int()` applied to a real value: truncation toward zero. -/
def pyTrunc (q : ℚ) : ℤ := if 0 ≤ q then ⌊q⌋ else -⌊-q⌋

/-- `target_words = int(target_duration * words_per_minute)`
(app.py line 149). `target_duration` is an `int` in the app, hence `ℕ`. -/
def targetWords (targetDuration : ℕ) (wordsPerMinute : ℚ) : ℤ :=
  pyTrunc ((targetDuration : ℚ) * wordsPerMinute)

/-- `words_per_slide = target_words // len(slides)` (app.py line 150);
Python `//` on integers is floor division. -/
def wordsPerSlide (tw : ℤ) (slideCount : ℕ) : ℤ :=
  Int.fdiv tw (slideCount : ℤ)

/-- C1: with positive duration, positive words-per-minute and a non-empty
slide sequence, the composer's `target_words` is `⌊duration * wpm⌋` and
`words_per_slide` is the integer floor quotient of `target_words` by the
slide count (remainder dropped); concretely duration 10 at 200 wpm gives
2000 target words and 250 words per slide across 8 slides. -/
theorem composer_word_budget (d : ℕ) (wpm : ℚ) (n : ℕ)
    (hd : 0 < d) (hw : 0 < wpm) (hn : 0 < n) :
    targetWords d wpm = ⌊(d : ℚ) * wpm⌋ ∧
    wordsPerSlide (targetWords d wpm) n * n ≤ targetWords d wpm ∧
    targetWords d wpm < (wordsPerSlide (targetWords d wpm) n + 1) * n ∧
    targetWords 10 200 = 2000 ∧
    wordsPerSlide (targetWords 10 200) 8 = 250 := by
  have hprod : (0 : ℚ) ≤ (d : ℚ) * wpm := by positivity
  have h1 : targetWords d wpm = ⌊(d : ℚ) * wpm⌋ := by
    simp [targetWords, pyTrunc, hprod]
  have hc : targetWords 10 200 = 2000 := by norm_num [targetWords, pyTrunc]
  have hfd : wordsPerSlide (targetWords d wpm) n =
      targetWords d wpm / (n : ℤ) := by
    rw [wordsPerSlide, Int.fdiv_eq_ediv _ (Int.natCast_nonneg n)]
  refine ⟨h1, ?_, ?_, hc, by rw [hc]; decide⟩
  · rw [hfd]
    exact Int.ediv_mul_le _ (by exact_mod_cast hn.ne')
  · rw [hfd]
    have hnz : (0 : ℤ) < (n : ℤ) := by exact_mod_cast hn
    exact Int.lt_ediv_add_one_mul_self _ hnz

/-- Witness for `composer_word_budget` at duration 10, 200 wpm, 8 slides. -/
theorem composer_word_budget_witness :
    targetWords 10 200 = ⌊(10 : ℚ) * 200⌋ ∧
    wordsPerSlide (targetWords 10 200) 8 * 8 ≤ targetWords 10 200 ∧
    targetWords 10 200 < (wordsPerSlide (targetWords 10 200) 8 + 1) * 8 ∧
    targetWords 10 200 = 2000 ∧
    wordsPerSlide (targetWords 10 200) 8 = 250 :=
  composer_word_budget 10 200 8 (by decide) (by norm_num) (by decide)

/-! ## Slide Extractor (`PDFProcessor.extract_slides`, app.py lines 22-55) -/

/-- One page of an opened PDF document: the text `page.get_text()` returns
and the base64-encoded PNG raster built from `page.get_pixmap(matrix=
fitz.Matrix(2, 2))` (the rendering library is abstracted). -/
structure PdfPage where
  text : String
  imageB64 : String
deriving DecidableEq

/-- One element of the list `extract_slides` returns: the dict
`{"page": page_num + 1, "text": ..., "image": ...}` (app.py lines 44-48). -/
structure SlideRecord where
  page : ℕ
  text : String
  image : String
deriving DecidableEq

/-- Failures of `extract_slides`: a document with zero pages (app.py line
32-34) or an input `fitz.open` cannot parse; both surface through the
`except` clause at line 54-55. -/
inductive ExtractError where
  | emptyDocument
  | parseError
deriving DecidableEq

/-- The placeholder stored when a page's stripped text is empty
(app.py line 46). -/
def noTextPlaceholder : String := "[No text content on this page]"

/-- Loop body of `extract_slides` (app.py lines 39-48): `pageNum` is the
0-based loop counter, the stored text is `page.get_text().strip()` or the
placeholder when that is empty. -/
def slideFromPage (pageNum : ℕ) (p : PdfPage) : SlideRecord :=
  let text := pyStrip p.text
  { page := pageNum + 1
    text := if text = "" then noTextPlaceholder else text
    image := p.imageB64 }

/-- The `for page_num in range(len(doc))` loop of `extract_slides`
(app.py lines 38-48), with `k` the current value of the counter. -/
def buildSlides : ℕ → List PdfPage → List SlideRecord
  | _, [] => []
  | k, p :: rest => slideFromPage k p :: buildSlides (k + 1) rest

/-- `PDFProcessor.extract_slides` (app.py lines 22-55). The document is
`none` when the input is unreadable (any exception out of `fitz.open`),
otherwise the list of its pages. -/
def extractSlides (doc : Option (List PdfPage)) :
    Except ExtractError (List SlideRecord) :=
  match doc with
  | none => .error .parseError
  | some pages =>
    if pages.length = 0 then .error .emptyDocument
    else .ok (buildSlides 0 pages)

/-- `extract_slides` together with the `self.slides_content = slides`
assignment (app.py line 51): the assignment runs only after the loop
completes, so a raised exception leaves the field at `prev`. -/
def extractSlidesRun (prev : List SlideRecord)
    (doc : Option (List PdfPage)) :
    Except ExtractError (List SlideRecord) × List SlideRecord :=
  match extractSlides doc with
  | .error e => (.error e, prev)
  | .ok slides => (.ok slides, slides)

theorem buildSlides_length (pages : List PdfPage) :
    ∀ k, (buildSlides k pages).length = pages.length := by
  induction pages with
  | nil => intro k; rfl
  | cons p rest ih => intro k; simp [buildSlides, ih]

theorem buildSlides_get (pages : List PdfPage) :
    ∀ k i (hi : i < pages.length),
      (buildSlides k pages).get ⟨i, by rw [buildSlides_length]; exact hi⟩ =
        slideFromPage (k + i) (pages.get ⟨i, hi⟩) := by
  induction pages with
  | nil => intro k i hi; exact absurd hi (Nat.not_lt_zero i)
  | cons p rest ih =>
    intro k i hi
    match i with
    | 0 => simp [buildSlides]
    | j + 1 =>
      have hj : j < rest.length := Nat.lt_of_succ_lt_succ hi
      have := ih (k + 1) j hj
      simp only [buildSlides, List.get_cons_succ]
      rw [this]
      congr 1
      omega

/-- C3: for a readable PDF with at least one page, `extract_slides`
succeeds with exactly one record per page, in page order with 1-based
page indices, and each record's text is the page's stripped extracted
text, replaced by the placeholder when that text is empty. -/
theorem extractSlides_per_page (pages : List PdfPage) (hne : pages ≠ []) :
    ∃ slides, extractSlides (some pages) = .ok slides ∧
      slides.length = pages.length ∧
      ∀ i (hi : i < slides.length) (hp : i < pages.length),
        (slides.get ⟨i, hi⟩).page = i + 1 ∧
        (slides.get ⟨i, hi⟩).text =
          (if pyStrip (pages.get ⟨i, hp⟩).text = "" then noTextPlaceholder
           else pyStrip (pages.get ⟨i, hp⟩).text) ∧
        (slides.get ⟨i, hi⟩).image = (pages.get ⟨i, hp⟩).imageB64 := by
  have hlen : pages.length ≠ 0 := by
    intro h; exact hne (List.length_eq_zero.mp h)
  refine ⟨buildSlides 0 pages, ?_, buildSlides_length pages 0, ?_⟩
  · simp [extractSlides, hlen]
  · intro i hi hp
    have hget := buildSlides_get pages 0 i hp
    have hzero : (0 : ℕ) + i = i := Nat.zero_add i
    rw [hzero] at hget
    have hfix : (buildSlides 0 pages).get ⟨i, hi⟩ =
        slideFromPage i (pages.get ⟨i, hp⟩) := hget
    rw [hfix]
    exact ⟨rfl, rfl, rfl⟩

/-- Witness for `extractSlides_per_page` on a concrete two-page document
(second page whitespace-only). -/
theorem extractSlides_per_page_witness :
    ∃ slides,
      extractSlides (some [⟨" hello ", "imgA"⟩, ⟨"  ", "imgB"⟩]) =
        .ok slides ∧
      slides.length = ([⟨" hello ", "imgA"⟩, ⟨"  ", "imgB"⟩] :
        List PdfPage).length ∧
      ∀ i (hi : i < slides.length)
        (hp : i < ([⟨" hello ", "imgA"⟩, ⟨"  ", "imgB"⟩] :
          List PdfPage).length),
        (slides.get ⟨i, hi⟩).page = i + 1 ∧
        (slides.get ⟨i, hi⟩).text =
          (if pyStrip (([⟨" hello ", "imgA"⟩, ⟨"  ", "imgB"⟩] :
              List PdfPage).get ⟨i, hp⟩).text = "" then noTextPlaceholder
           else pyStrip (([⟨" hello ", "imgA"⟩, ⟨"  ", "imgB"⟩] :
              List PdfPage).get ⟨i, hp⟩).text) ∧
        (slides.get ⟨i, hi⟩).image =
          (([⟨" hello ", "imgA"⟩, ⟨"  ", "imgB"⟩] :
            List PdfPage).get ⟨i, hp⟩).imageB64 :=
  extractSlides_per_page [⟨" hello ", "imgA"⟩, ⟨"  ", "imgB"⟩] (by simp)

/-- C10: a failing extraction (unreadable input or a zero-page document)
leaves the stored `slides_content` unchanged; it is replaced exactly by
the result on success. -/
theorem extractSlides_state_on_failure (prev : List SlideRecord)
    (doc : Option (List PdfPage)) :
    (∀ e, extractSlides doc = .error e →
      (extractSlidesRun prev doc).2 = prev) ∧
    (∀ slides, extractSlides doc = .ok slides →
      (extractSlidesRun prev doc).2 = slides) := by
  constructor
  · intro e he; simp [extractSlidesRun, he]
  · intro slides hs; simp [extractSlidesRun, hs]

/-- Witness for `extractSlides_state_on_failure`: an unreadable document
and a zero-page document both preserve the previous slide list. -/
theorem extractSlides_state_on_failure_witness :
    (extractSlidesRun [⟨1, "t", "i"⟩] none).2 = [⟨1, "t", "i"⟩] ∧
    (extractSlidesRun [⟨1, "t", "i"⟩] (some [])).2 = [⟨1, "t", "i"⟩] :=
  ⟨(extractSlides_state_on_failure [⟨1, "t", "i"⟩] none).1
      ExtractError.parseError rfl,
   (extractSlides_state_on_failure [⟨1, "t", "i"⟩] (some [])).1
      ExtractError.emptyDocument rfl⟩

/-! ## Speech-Rate Estimator (`AudioAnalyzer.analyze_audio`,
app.py lines 75-121) -/

/-- Failures of `analyze_audio`: the two duration checks (app.py lines
86-89), an empty transcription (line 104-105), and a failing format
conversion in `_convert_to_mp3` (lines 65-73). -/
inductive AudioError where
  | tooShort
  | tooLong
  | emptyTranscription
  | formatError
deriving DecidableEq

/-- `len([c for c in text if c.strip() and not c.isspace()])` (app.py line
108): for a single character both Python tests hold exactly when the
character is not whitespace. -/
def nonSpaceCount (t : String) : ℕ :=
  (t.data.filter (fun c => !(isWS c))).length

/-- `AudioAnalyzer.analyze_audio` (app.py lines 75-121). The audio decoder
and the remote transcription service are abstracted: `durationSeconds` is
`len(audio) / 1000.0` and `transcriptionText` is the text the service
returns for this sample. -/
def analyzeAudio (durationSeconds : ℚ) (transcriptionText : String) :
    Except AudioError ℚ :=
  if durationSeconds < 5 then .error .tooShort
  else if 120 < durationSeconds then .error .tooLong
  else if transcriptionText = "" ∨ (pyStrip transcriptionText).length = 0
    then .error .emptyTranscription
  else .ok (((nonSpaceCount transcriptionText : ℚ) / durationSeconds) * 60)

theorem pyStrip_eq_empty_iff (t : String) :
    pyStrip t = "" ↔ ∀ c ∈ t.data, isWS c = true := by
  constructor
  · intro h c hc
    have hdata : (((t.data.dropWhile isWS).reverse.dropWhile
        isWS).reverse) = [] := congrArg String.data h
    rw [List.reverse_eq_nil_iff, List.dropWhile_eq_nil_iff] at hdata
    have hdrop : ∀ x ∈ t.data.dropWhile isWS, isWS x = true := by
      intro x hx
      exact hdata x (List.mem_reverse.mpr hx)
    rcases (List.mem_append.mp
        (by rw [List.takeWhile_append_dropWhile]; exact hc :
          c ∈ t.data.takeWhile isWS ++ t.data.dropWhile isWS)) with
      htk | hdp
    · exact List.mem_takeWhile_imp htk
    · exact hdrop c hdp
  · intro h
    have h1 : t.data.dropWhile isWS = [] :=
      List.dropWhile_eq_nil_iff.mpr h
    simp [pyStrip, h1]

theorem strLength_zero_eq_empty (s : String) (h : s.length = 0) :
    s = "" := by
  cases s with
  | mk l =>
    have hl : l.length = 0 := h
    have hnil : l = [] := List.length_eq_zero.mp hl
    subst hnil
    rfl

/-- C4: the estimator accepts durations in `[5, 120]` seconds: anything
strictly below 5 fails as too short, anything strictly above 120 fails as
too long, and any duration in the closed interval passes both checks (so
analysis succeeds whenever the transcription has usable text). -/
theorem analyzeAudio_duration_bounds (d : ℚ) (t : String) :
    (d < 5 → analyzeAudio d t = .error .tooShort) ∧
    (120 < d → analyzeAudio d t = .error .tooLong) ∧
    (5 ≤ d → d ≤ 120 → pyStrip t ≠ "" →
      ∃ w, analyzeAudio d t = .ok w) := by
  refine ⟨?_, ?_, ?_⟩
  · intro h; simp [analyzeAudio, h]
  · intro h
    have hns : ¬ d < 5 := by linarith
    simp [analyzeAudio, hns, h]
  · intro h5 h120 hne
    have hns : ¬ d < 5 := not_lt.mpr h5
    have hnl : ¬ 120 < d := not_lt.mpr h120
    have hcond : ¬ (t = "" ∨ (pyStrip t).length = 0) := by
      rintro (rfl | hlen)
      · exact hne rfl
      · exact hne (strLength_zero_eq_empty _ hlen)
    exact ⟨((nonSpaceCount t : ℚ) / d) * 60,
      by simp [analyzeAudio, hns, hnl, hcond]⟩

/-- Witness for `analyzeAudio_duration_bounds`: 4.99 s fails short,
120.01 s fails long, exactly 5 s succeeds. -/
theorem analyzeAudio_duration_bounds_witness :
    analyzeAudio (499/100) "hi" = .error .tooShort ∧
    analyzeAudio (12001/100) "hi" = .error .tooLong ∧
    ∃ w, analyzeAudio 5 "hi" = .ok w :=
  ⟨(analyzeAudio_duration_bounds (499/100) "hi").1 (by norm_num),
   (analyzeAudio_duration_bounds (12001/100) "hi").2.1 (by norm_num),
   (analyzeAudio_duration_bounds 5 "hi").2.2 (le_refl 5) (by norm_num)
     (by decide)⟩

/-- C5: with an in-range duration, an empty or all-whitespace
transcription fails with the empty-transcription error, and otherwise the
estimator returns `(character_count / duration_seconds) * 60` where
`character_count` counts the non-whitespace characters of the
transcription. -/
theorem analyzeAudio_rate_formula (d : ℚ) (t : String)
    (h5 : 5 ≤ d) (h120 : d ≤ 120) :
    ((∀ c ∈ t.data, isWS c = true) →
      analyzeAudio d t = .error .emptyTranscription) ∧
    (¬ (∀ c ∈ t.data, isWS c = true) →
      analyzeAudio d t =
        .ok ((((t.data.filter (fun c => !(isWS c))).length : ℚ) / d) * 60)) := by
  have hns : ¬ d < 5 := not_lt.mpr h5
  have hnl : ¬ 120 < d := not_lt.mpr h120
  constructor
  · intro hall
    have hstrip : pyStrip t = "" := (pyStrip_eq_empty_iff t).mpr hall
    have hcond : t = "" ∨ (pyStrip t).length = 0 := Or.inr (by
      rw [hstrip]; rfl)
    simp [analyzeAudio, hns, hnl, hcond]
  · intro hnall
    have hstrip : pyStrip t ≠ "" := by
      intro h; exact hnall ((pyStrip_eq_empty_iff t).mp h)
    have hcond : ¬ (t = "" ∨ (pyStrip t).length = 0) := by
      rintro (rfl | hlen)
      · exact hnall (by intro c hc; cases hc)
      · exact hstrip (strLength_zero_eq_empty _ hlen)
    simp [analyzeAudio, hns, hnl, hcond, nonSpaceCount]

/-- Witness for `analyzeAudio_rate_formula` at 5 s: an all-whitespace
transcription errors; `"ab"` yields `(2 / 5) * 60` wpm. -/
theorem analyzeAudio_rate_formula_witness :
    analyzeAudio 5 "  " = .error .emptyTranscription ∧
    analyzeAudio 5 "ab" =
      .ok (((("ab".data.filter (fun c => !(isWS c))).length : ℚ) / 5) * 60) :=
  ⟨(analyzeAudio_rate_formula 5 "  " (le_refl 5) (by norm_num)).1
      (by decide),
   (analyzeAudio_rate_formula 5 "ab" (le_refl 5) (by norm_num)).2
      (by decide)⟩

/-! ## Transcript Composer (`TranscriptGenerator`, app.py lines 124-306) -/

/-- `style_descriptions` (app.py lines 252-258). -/
def styleDescriptions : List (String × String) :=
  [("Lively",
    "Use a relaxed, lively tone with appropriate interactive and humorous elements"),
   ("Serious",
    "Use a formal, professional tone maintaining academic rigor"),
   ("Motivational",
    "Use inspiring language full of positive energy and motivation"),
   ("Educational",
    "Use clear, easy-to-understand explanations, as if teaching students"),
   ("Conversational",
    "Use a conversational tone, as if talking face-to-face with the audience")]

/-- `language_instructions` (app.py lines 260-269). -/
def languageInstructions : List (String × String) :=
  [("Traditional Chinese", "Output in Traditional Chinese"),
   ("English", "Output in English"),
   ("Simplified Chinese", "Output in Simplified Chinese"),
   ("Japanese", "Output in Japanese"),
   ("Korean", "Output in Korean"),
   ("Spanish", "Output in Spanish"),
   ("French", "Output in French"),
   ("German", "Output in German")]

/-- Python `dict.get(key, default)`. -/
def dictGetD (d : List (String × String)) (k dflt : String) : String :=
  match d.lookup k with
  | some v => v
  | none => dflt

/-- `style_descriptions.get(style, "Use a natural and smooth tone")`
(app.py line 275). -/
def styleDesc (style : String) : String :=
  dictGetD styleDescriptions style "Use a natural and smooth tone"

/-- `language_instructions.get(language, "Output in Traditional Chinese")`
(app.py line 276). -/
def langInst (language : String) : String :=
  dictGetD languageInstructions language "Output in Traditional Chinese"

/-- `role_intro` (app.py lines 271-273): empty unless an expert role was
supplied. -/
def roleIntro : Option String → String
  | some r => "You are a " ++ r ++ ", "
  | none => ""

/-- `tips_requirement` (app.py lines 278-287): the bracket-tag guidance
block appended to the system prompt, empty when tips are off. -/
def tipsRequirement (includeTips : Bool) : String :=
  if includeTips then
    "\n7. Include speech tips suggestions in appropriate places, marked with [square brackets], including:\n   - Gesture suggestions (e.g., open arms, point to slide, clench fist for emphasis)\n   - Tone suggestions (e.g., raise volume, slow down, emphasize)\n   - Pause timing (e.g., [Pause 2-3 seconds])\n   - Body language (e.g., eye contact, movement, lean forward)\n   These suggestions should blend naturally into the transcript to help the speaker better convey the message\n"
  else ""

/-- Body of the system prompt f-string up to requirement 6 (app.py lines
289-305), before `tips_requirement` is spliced in. -/
def sysPromptMain (style topic audience language : String)
    (expertRole : Option String) (wps : ℤ) : String :=
  "\n" ++ roleIntro expertRole ++
  "You are an experienced speaker and content creation expert.\n\nSpeech Topic: " ++
  topic ++ "\nTarget Audience: " ++ audience ++ "\nSpeech Style: " ++
  styleDesc style ++ "\nLanguage Requirement: " ++ langInst language ++
  "\n\nYour task is to create a natural, smooth, and engaging speech transcript based on the provided slide content.\n\nRequirements:\n1. Content must be faithful to the slides but expressed in spoken language\n2. Approximately " ++
  toString wps ++
  " words per page, adjustable based on content importance\n3. Opening must be attractive, closing must be powerful\n4. Add transition phrases appropriately to ensure smooth flow\n5. Match the specified speech style and target audience\n6. Ensure content is professional and accurate, yet easy to understand"

/-- `TranscriptGenerator._create_system_prompt` (app.py lines 240-306). -/
def createSystemPrompt (style topic audience language : String)
    (expertRole : Option String) (wps : ℤ) (includeTips : Bool) : String :=
  sysPromptMain style topic audience language expertRole wps ++
  tipsRequirement includeTips ++ "\n"

/-- `tips_instruction` (app.py lines 156-169): the bracket-tag guidance
block spliced into the user text, empty when tips are off. -/
def tipsInstruction (includeTips : Bool) : String :=
  if includeTips then
    "\n\n【Speech Tips Suggestions】\nPlease include the following speech tips in appropriate places within the transcript (marked with [square brackets]):\n- [Gesture: Open arms] - When emphasizing a key point\n- [Gesture: Point to slide] - When explaining a chart\n- [Tone: Raise volume] - For key messages\n- [Tone: Slow down] - For important concepts\n- [Pause 2-3 seconds] - During section transitions\n- [Eye contact] - When interacting with the audience\n- [Movement: Move to center stage] - During opening or closing\n"
  else ""

/-- User text f-string up to `- Output Language: {language}` (app.py lines
174-182), before `tips_instruction` is spliced in. -/
def userTextHead (targetDuration : ℕ) (wpm : ℚ) (tw wps : ℤ)
    (language : String) : String :=
  "\nPlease generate a complete speech transcript based on the following slide images.\n\nSpeech Parameters:\n- Total Duration: " ++
  toString targetDuration ++ " minutes\n- Speech Rate: Approximately " ++
  toString (pyTrunc wpm) ++
  " words per minute\n- Target Total Word Count: Approximately " ++
  toString tw ++ " words\n- Suggested Words per Slide: Approximately " ++
  toString wps ++ " words\n- Output Language: " ++ language

/-- User text f-string after the `tips_instruction` splice point (app.py
lines 182-199). -/
def userTextTail (tw : ℤ) : String :=
  "\n\nOutput Format Requirements:\nSlide 1\n[Speech content for slide 1]\n\nSlide 2\n[Speech content for slide 2]\n\n...and so on\n\nPlease ensure:\n1. Carefully observe the visual elements, charts, and text on each slide\n2. The transcript for each page is natural and smooth, explaining the key points on the slide\n3. Content flows smoothly with a clear opening and closing\n4. Matches the specified speech style and tone\n5. Total word count is around " ++
  toString tw ++ " words (allow 10% variance)\n"

/-- The full `"text"` entry of `user_content` (app.py lines 171-201). -/
def userTextBlock (targetDuration : ℕ) (wpm : ℚ) (tw wps : ℤ)
    (language : String) (includeTips : Bool) : String :=
  userTextHead targetDuration wpm tw wps language ++
  tipsInstruction includeTips ++ userTextTail tw

/-- `PresentationParameters`: the arguments of `generate_transcript`
(app.py lines 131-142) other than the slide list. -/
structure PresentationParameters where
  targetDuration : ℕ
  wordsPerMinute : ℚ
  style : String
  topic : String
  audience : String
  language : String
  modelName : String
  expertRole : Option String
  includeTips : Bool
deriving DecidableEq

/-- One `image_url` entry of `user_content` (app.py lines 204-211). -/
structure ImageAttachment where
  url : String
  detail : String
deriving DecidableEq

/-- The payload handed to `client.chat.completions.create` (app.py lines
214-222): model, the two messages (system string, user text plus ordered
image attachments), and the fixed sampling options. -/
structure ChatRequest where
  model : String
  systemPrompt : String
  userText : String
  images : List ImageAttachment
  temperature : ℚ
  maxCompletionTokens : ℕ
deriving DecidableEq

/-- Failure of `generate_transcript` before any remote call: the empty
slide check at app.py lines 146-147. -/
inductive GenError where
  | noSlides
deriving DecidableEq

/-- The attachment built for one slide (app.py lines 204-211). -/
def slideImageAttachment (s : SlideRecord) : ImageAttachment :=
  { url := "data:image/png;base64," ++ s.image, detail := "high" }

/-- `TranscriptGenerator.generate_transcript` up to the remote call
(app.py lines 131-222): the guard `if not slides or len(slides) == 0`
fails first; otherwise the request payload is assembled. The remote
completion itself is abstracted: the embedding returns the payload that
would be submitted. -/
def generateRequest (slides : List SlideRecord)
    (p : PresentationParameters) : Except GenError ChatRequest :=
  if slides.length = 0 then .error .noSlides
  else
    let tw := targetWords p.targetDuration p.wordsPerMinute
    let wps := wordsPerSlide tw slides.length
    .ok
      { model := p.modelName
        systemPrompt := createSystemPrompt p.style p.topic p.audience
          p.language p.expertRole wps p.includeTips
        userText := userTextBlock p.targetDuration p.wordsPerMinute tw wps
          p.language p.includeTips
        images := slides.map slideImageAttachment
        temperature := 7/10
        maxCompletionTokens := 4000 }

/-- `startswith` on character lists: does the first list begin the
second? -/
def listStarts : List Char → List Char → Bool
  | [], _ => true
  | _ :: _, [] => false
  | p :: ps, c :: cs => p == c && listStarts ps cs

/-- Occurrence check scanning every position, modelling Python's `in` on
strings. -/
def hasPattern (pat : List Char) : List Char → Bool
  | [] => listStarts pat []
  | c :: rest => listStarts pat (c :: rest) || hasPattern pat rest

/-- Python `pat in s` for strings. -/
def strContainsB (s pat : String) : Bool := hasPattern pat.data s.data

/-- Python `str.lower()`. -/
def pyLower (s : String) : String := String.mk (s.data.map Char.toLower)

/-- The four user-facing categories produced by the `except` clause of
`generate_transcript` (app.py lines 229-238). -/
inductive ErrorCategory where
  | authError
  | rateLimitError
  | quotaError
  | genericError
deriving DecidableEq

/-- The substring classification at app.py lines 230-238, applied to the
stringified exception from the remote call. -/
def classifyError (msg : String) : ErrorCategory :=
  if strContainsB msg "API key" ||
      strContainsB (pyLower msg) "authentication" then .authError
  else if strContainsB (pyLower msg) "rate limit" then .rateLimitError
  else if strContainsB (pyLower msg) "quota" then .quotaError
  else .genericError

theorem strInfixRight (l : List Char) (a b : String)
    (h : l <:+: a.data) : l <:+: (a ++ b).data := by
  rcases h with ⟨s, t, hst⟩
  exact ⟨s, t ++ b.data, by rw [String.data_append, ← hst]; simp⟩

theorem strInfixLeft (l : List Char) (a b : String)
    (h : l <:+: b.data) : l <:+: (a ++ b).data := by
  rcases h with ⟨s, t, hst⟩
  exact ⟨a.data ++ s, t, by rw [String.data_append, ← hst]; simp⟩

theorem strInfixSelf (s : String) : s.data <:+: s.data :=
  ⟨[], [], by simp⟩

/-- C2: the composer rejects an empty slide sequence: the call fails with
the no-slides error and no request payload is ever produced, so no remote
completion call can be attempted. -/
theorem composer_rejects_empty (slides : List SlideRecord)
    (p : PresentationParameters) (h : slides = []) :
    generateRequest slides p = .error .noSlides ∧
    ∀ req, generateRequest slides p ≠ .ok req := by
  subst h
  refine ⟨rfl, ?_⟩
  intro req hreq
  simp [generateRequest] at hreq

/-- Witness for `composer_rejects_empty` at concrete parameters. -/
theorem composer_rejects_empty_witness :
    generateRequest []
      ⟨10, 200, "Lively", "AI", "Students", "English", "gpt-5.1",
        none, false⟩ = .error .noSlides ∧
    ∀ req, generateRequest []
      ⟨10, 200, "Lively", "AI", "Students", "English", "gpt-5.1",
        none, false⟩ ≠ .ok req :=
  composer_rejects_empty []
    ⟨10, 200, "Lively", "AI", "Students", "English", "gpt-5.1",
      none, false⟩ rfl

/-- C6: an unrecognized style tag falls back to the neutral-tone
description and an unrecognized output-language tag falls back to the
default output language, with recognized tags resolved by the fixed
lookups; in both cases the resolved description appears in the
constructed system prompt. -/
theorem style_language_fallback (style language topic audience : String)
    (role : Option String) (wps : ℤ) (tips : Bool) :
    (styleDescriptions.lookup style = none →
      styleDesc style = "Use a natural and smooth tone") ∧
    (∀ v, styleDescriptions.lookup style = some v →
      styleDesc style = v) ∧
    (languageInstructions.lookup language = none →
      langInst language = "Output in Traditional Chinese") ∧
    (∀ v, languageInstructions.lookup language = some v →
      langInst language = v) ∧
    (styleDesc style).data <:+:
      (createSystemPrompt style topic audience language role wps
        tips).data ∧
    (langInst language).data <:+:
      (createSystemPrompt style topic audience language role wps
        tips).data := by
  refine ⟨?_, ?_, ?_, ?_, ?_, ?_⟩
  · intro h; simp [styleDesc, dictGetD, h]
  · intro v h; simp [styleDesc, dictGetD, h]
  · intro h; simp [langInst, dictGetD, h]
  · intro v h; simp [langInst, dictGetD, h]
  · rw [createSystemPrompt]
    apply strInfixRight
    apply strInfixRight
    rw [sysPromptMain]
    apply strInfixRight
    apply strInfixRight
    apply strInfixRight
    apply strInfixRight
    apply strInfixRight
    apply strInfixLeft
    exact strInfixSelf _
  · rw [createSystemPrompt]
    apply strInfixRight
    apply strInfixRight
    rw [sysPromptMain]
    apply strInfixRight
    apply strInfixRight
    apply strInfixRight
    apply strInfixLeft
    exact strInfixSelf _

/-- Witness for `style_language_fallback`: the unknown tags `"Casual"`
and `"Latin"` resolve to the defaults, the known tags `"Lively"` and
`"English"` resolve to their table entries. -/
theorem style_language_fallback_witness :
    styleDesc "Casual" = "Use a natural and smooth tone" ∧
    langInst "Latin" = "Output in Traditional Chinese" ∧
    styleDesc "Lively" =
      "Use a relaxed, lively tone with appropriate interactive and humorous elements" ∧
    langInst "English" = "Output in English" :=
  ⟨(style_language_fallback "Casual" "Latin" "t" "a" none 250 false).1
      (by decide),
   (style_language_fallback "Casual" "Latin" "t" "a" none 250
      false).2.2.1 (by decide),
   (style_language_fallback "Lively" "English" "t" "a" none 250
      false).2.1 _ (by decide),
   (style_language_fallback "Lively" "English" "t" "a" none 250
      false).2.2.2.1 _ (by decide)⟩

set_option maxRecDepth 100000 in
/-- C7: with delivery tips off both guidance blocks are empty, so the
user text and system prompt are exactly head-plus-tail with no
bracket-tag annotation block (checked concretely: the block's banner does
not occur in the no-tips user text); with tips on, the fixed block
carrying the gesture, tone, pause, eye-contact and movement categories is
appended at the splice points. -/
theorem delivery_tips_block (d : ℕ) (wpm : ℚ) (tw wps : ℤ)
    (lang style topic audience : String) (role : Option String) :
    tipsInstruction false = "" ∧
    tipsRequirement false = "" ∧
    userTextBlock d wpm tw wps lang false =
      userTextHead d wpm tw wps lang ++ userTextTail tw ∧
    createSystemPrompt style topic audience lang role wps false =
      sysPromptMain style topic audience lang role wps ++ "\n" ∧
    userTextBlock d wpm tw wps lang true =
      userTextHead d wpm tw wps lang ++ tipsInstruction true ++
        userTextTail tw ∧
    "[Gesture".data <:+: (tipsInstruction true).data ∧
    "[Tone".data <:+: (tipsInstruction true).data ∧
    "[Pause".data <:+: (tipsInstruction true).data ∧
    "[Eye contact]".data <:+: (tipsInstruction true).data ∧
    "[Movement".data <:+: (tipsInstruction true).data ∧
    strContainsB (userTextBlock 10 200 2000 250 "English" false)
      "【Speech Tips Suggestions】" = false ∧
    strContainsB (userTextBlock 10 200 2000 250 "English" true)
      "【Speech Tips Suggestions】" = true := by
  refine ⟨rfl, rfl, ?_, ?_, rfl, by decide, by decide, by decide,
    by decide, by decide, by decide, by decide⟩
  · rw [userTextBlock, tipsInstruction]
    simp [String.append_empty]
  · rw [createSystemPrompt, tipsRequirement]
    simp [String.append_empty]

/-- C8: the substring-based exception translation sends authentication
failures, rate-limit responses and quota-exhaustion responses to three
distinct user-actionable categories, everything else to the generic one,
and the four categories are pairwise distinct. -/
theorem remote_error_translation (msg : String) :
    (strContainsB msg "API key" = true ∨
      strContainsB (pyLower msg) "authentication" = true →
      classifyError msg = .authError) ∧
    (strContainsB msg "API key" = false →
      strContainsB (pyLower msg) "authentication" = false →
      strContainsB (pyLower msg) "rate limit" = true →
      classifyError msg = .rateLimitError) ∧
    (strContainsB msg "API key" = false →
      strContainsB (pyLower msg) "authentication" = false →
      strContainsB (pyLower msg) "rate limit" = false →
      strContainsB (pyLower msg) "quota" = true →
      classifyError msg = .quotaError) ∧
    (strContainsB msg "API key" = false →
      strContainsB (pyLower msg) "authentication" = false →
      strContainsB (pyLower msg) "rate limit" = false →
      strContainsB (pyLower msg) "quota" = false →
      classifyError msg = .genericError) ∧
    (ErrorCategory.authError ≠ .rateLimitError ∧
     ErrorCategory.authError ≠ .quotaError ∧
     ErrorCategory.authError ≠ .genericError ∧
     ErrorCategory.rateLimitError ≠ .quotaError ∧
     ErrorCategory.rateLimitError ≠ .genericError ∧
     ErrorCategory.quotaError ≠ .genericError) := by
  refine ⟨?_, ?_, ?_, ?_, by decide, by decide, by decide, by decide,
    by decide, by decide⟩
  · rintro (h | h) <;> simp [classifyError, h]
  · intro h1 h2 h3; simp [classifyError, h1, h2, h3]
  · intro h1 h2 h3 h4; simp [classifyError, h1, h2, h3, h4]
  · intro h1 h2 h3 h4; simp [classifyError, h1, h2, h3, h4]

/-- Witness for `remote_error_translation` on four concrete remote
failure messages. -/
theorem remote_error_translation_witness :
    classifyError "Incorrect API key provided" = .authError ∧
    classifyError "Rate limit reached for requests" = .rateLimitError ∧
    classifyError "You exceeded your current quota" = .quotaError ∧
    classifyError "Connection reset by peer" = .genericError :=
  ⟨(remote_error_translation "Incorrect API key provided").1
      (Or.inl (by decide)),
   (remote_error_translation "Rate limit reached for requests").2.1
      (by decide) (by decide) (by decide),
   (remote_error_translation "You exceeded your current quota").2.2.1
      (by decide) (by decide) (by decide) (by decide),
   (remote_error_translation "Connection reset by peer").2.2.2.1
      (by decide) (by decide) (by decide) (by decide)⟩

/-- C9: request construction is a deterministic function of the
parameters and the slide sequence -- identical inputs yield structurally
identical payloads -- and on any non-empty slide sequence the produced
payload carries one image attachment per slide in slide order together
with the fixed sampling options. -/
theorem request_construction_deterministic :
    (∀ (p q : PresentationParameters) (s t : List SlideRecord),
      p = q → s = t → generateRequest s p = generateRequest t q) ∧
    (∀ (p : PresentationParameters) (s : List SlideRecord), s ≠ [] →
      ∃ req, generateRequest s p = .ok req ∧
        req.images = s.map slideImageAttachment ∧
        req.model = p.modelName ∧
        req.temperature = 7/10 ∧
        req.maxCompletionTokens = 4000) := by
  constructor
  · intro p q s t hp hs
    subst hp; subst hs; rfl
  · intro p s hs
    have hlen : s.length ≠ 0 := by
      intro h; exact hs (List.length_eq_zero.mp h)
    refine ⟨⟨p.modelName,
        createSystemPrompt p.style p.topic p.audience p.language
          p.expertRole
          (wordsPerSlide (targetWords p.targetDuration p.wordsPerMinute)
            s.length) p.includeTips,
        userTextBlock p.targetDuration p.wordsPerMinute
          (targetWords p.targetDuration p.wordsPerMinute)
          (wordsPerSlide (targetWords p.targetDuration p.wordsPerMinute)
            s.length) p.language p.includeTips,
        s.map slideImageAttachment, 7/10, 4000⟩, ?_, rfl, rfl, rfl, rfl⟩
    simp [generateRequest, hlen]

/-- Witness for `request_construction_deterministic` on a concrete
one-slide request. -/
theorem request_construction_deterministic_witness :
    generateRequest [⟨1, "t", "img"⟩]
        ⟨10, 200, "Lively", "AI", "Students", "English", "gpt-5.1",
          none, true⟩ =
      generateRequest [⟨1, "t", "img"⟩]
        ⟨10, 200, "Lively", "AI", "Students", "English", "gpt-5.1",
          none, true⟩ ∧
    ∃ req, generateRequest [⟨1, "t", "img"⟩]
        ⟨10, 200, "Lively", "AI", "Students", "English", "gpt-5.1",
          none, true⟩ = .ok req ∧
      req.images = [⟨1, "t", "img"⟩].map slideImageAttachment ∧
      req.model = "gpt-5.1" ∧
      req.temperature = 7/10 ∧
      req.maxCompletionTokens = 4000 :=
  ⟨request_construction_deterministic.1 _ _ _ _ rfl rfl,
   request_construction_deterministic.2
     ⟨10, 200, "Lively", "AI", "Students", "English", "gpt-5.1",
       none, true⟩ [⟨1, "t", "img"⟩] (by simp)⟩
